import Mathlib

/-!
Shallow embedding of the analytics engine in `src/src/RetailAnalytics.tsx`:
the seasonality model, the historical series generator, the forecast
projector, the KPI aggregator and the scenario multipliers.  JavaScript
numbers are modelled as exact rationals; `Math.round` as `jsRound`;
JavaScript division, which produces the non-finite values NaN or ±Infinity
when the divisor is zero, is modelled by `jsDiv` returning `none` in that
case.  Random draws of `Math.random()` (uniform in [0,1)) are passed
explicitly as parameters.
-/

namespace RetailAnalytics

/-- `Math.round x` for a real JavaScript number: the nearest integer,
halves rounding up, i.e. `⌊x + 1/2⌋`. -/
def jsRound (x : ℚ) : ℤ := ⌊x + 1/2⌋

/-- JavaScript division `a / b`.  When `b = 0` JavaScript yields NaN
(for `a = 0`) or ±Infinity (for `a ≠ 0`), i.e. no finite number: modelled
as `none`. -/
def jsDiv (a b : ℚ) : Option ℚ := if b = 0 then none else some (a / b)

/-- The `months` array (line 67 of the source). -/
def months : List String :=
  ["Jan", "Feb", "Mar", "Apr", "May", "Jun",
   "Jul", "Aug", "Sep", "Oct", "Nov", "Dec"]

/-- `months[index]` as read by the generator; indices used are 0–11. -/
def monthName (index : ℕ) : String := months.getD index ""

/-- `trafficSources` record of a month (lines 13–19 of the source). -/
structure TrafficSources where
  organic : ℤ
  paid : ℤ
  social : ℤ
  email : ℤ
  direct : ℤ
deriving DecidableEq, Repr

/-- One historical monthly record (`MonthData`, lines 21–29 of the source).
Fields produced by `Math.round` are integers; the two rate fields stay
rational. -/
structure MonthData where
  month : String
  revenue : ℤ
  units : ℤ
  grossMargin : ℚ
  conversionRate : ℚ
  avgOrderValue : ℤ
  trafficSources : TrafficSources
deriving DecidableEq, Repr

/-- One forecast point (`ForecastPoint`, lines 31–37 of the source). -/
structure ForecastPoint where
  month : String
  revenue : ℤ
  forecastHigh : ℤ
  forecastLow : ℤ
  confidence : ℚ
deriving DecidableEq, Repr

/-- `seasonality` (line 70 of the source):
`index < 6 ? 0.8 + index * 0.05 : 1.2 - (index - 6) * 0.03`. -/
def seasonality (index : ℕ) : ℚ :=
  if index < 6 then 8/10 + (index : ℚ) * (5/100)
  else 12/10 - ((index : ℚ) - 6) * (3/100)

/-- `holidayBoost` (line 71 of the source):
`[10, 11].includes(index) ? 1.4 : 1.0`. -/
def holidayBoost (index : ℕ) : ℚ :=
  if index = 10 ∨ index = 11 then 14/10 else 1

/-- The ten `Math.random()` draws consumed by one historical record, in
source order (lines 74–84), each uniform in [0,1). -/
structure Draws where
  revenue : ℚ
  units : ℚ
  grossMargin : ℚ
  conversionRate : ℚ
  avgOrderValue : ℚ
  organic : ℚ
  paid : ℚ
  social : ℚ
  email : ℚ
  direct : ℚ
deriving DecidableEq, Repr

/-- All ten draws of a record lie in [0,1), as `Math.random()` guarantees. -/
def Draws.valid (d : Draws) : Prop :=
  (0 ≤ d.revenue ∧ d.revenue < 1) ∧ (0 ≤ d.units ∧ d.units < 1) ∧
  (0 ≤ d.grossMargin ∧ d.grossMargin < 1) ∧
  (0 ≤ d.conversionRate ∧ d.conversionRate < 1) ∧
  (0 ≤ d.avgOrderValue ∧ d.avgOrderValue < 1) ∧
  (0 ≤ d.organic ∧ d.organic < 1) ∧ (0 ≤ d.paid ∧ d.paid < 1) ∧
  (0 ≤ d.social ∧ d.social < 1) ∧ (0 ≤ d.email ∧ d.email < 1) ∧
  (0 ≤ d.direct ∧ d.direct < 1)

instance (d : Draws) : Decidable d.valid := by
  unfold Draws.valid; infer_instance

/-- The record built for period `index` (lines 72–86 of the source), with
the record's random draws passed explicitly. -/
def mkRecord (index : ℕ) (d : Draws) : MonthData :=
  { month := monthName index
    revenue := jsRound ((850000 + d.revenue * 150000)
      * seasonality index * holidayBoost index)
    units := jsRound ((2800 + d.units * 500)
      * seasonality index * holidayBoost index)
    grossMargin := 68/100 + (d.grossMargin * (8/100) - 4/100)
    conversionRate := 34/1000 + (d.conversionRate * (8/1000) - 4/1000)
    avgOrderValue := jsRound (280 + d.avgOrderValue * 40)
    trafficSources :=
      { organic := jsRound (15000 + d.organic * 3000)
        paid := jsRound (8000 + d.paid * 2000)
        social := jsRound (5000 + d.social * 1500)
        email := jsRound (4000 + d.email * 1000)
        direct := jsRound (12000 + d.direct * 2500) } }

/-- `historicalData` (lines 69–87 of the source): one record per month,
`months.map((month, index) => ...)`, with the draw sequence explicit. -/
def historicalData (d : ℕ → Draws) : List MonthData :=
  (List.range 12).map fun index => mkRecord index (d index)

/-- `growthTrend = 1.08` (line 89 of the source). -/
def growthTrend : ℚ := 108/100

/-- `uncertainty = 0.10` (line 90 of the source). -/
def uncertainty : ℚ := 10/100

/-- The forecast point built for period `idx` from the historical revenue
at the same index (lines 92–101 of the source). -/
def forecastPoint (idx : ℕ) (rev : ℤ) : ForecastPoint :=
  let baseRevenue : ℚ := (rev : ℚ) * growthTrend
  { month := monthName idx ++ " (F)"
    revenue := jsRound baseRevenue
    forecastHigh := jsRound (baseRevenue * (1 + uncertainty))
    forecastLow := jsRound (baseRevenue * (1 - uncertainty))
    confidence := max 0 (85/100 - (idx : ℚ) * (2/100)) }

/-- `forecastData` (lines 92–101 of the source):
`months.map((month, idx) => ...)` reading `historicalData[idx].revenue`
for `idx` in 0–11; the 12-record historical array is modelled as a
sequence of records indexed by ℕ. -/
def forecastData (hist : ℕ → MonthData) : List ForecastPoint :=
  (List.range 12).map fun idx => forecastPoint idx (hist idx).revenue

/-- The KPI summary record (lines 112–121 of the source).  The three
averages and the growth are JavaScript divisions, hence `Option ℚ`
(`none` = non-finite). -/
structure KPIs where
  totalRevenue : ℤ
  avgGrossMargin : Option ℚ
  avgConversionRate : Option ℚ
  avgOrderValue : Option ℚ
  monthlyGrowth : Option ℚ
deriving DecidableEq, Repr

/-- `kpis` (lines 109–121 of the source).  `currentMonthData` is
`historicalData[length-1]` and `previousMonthData` is
`historicalData[length-2]`; `previousMonthData` is defined (truthy)
exactly when the series has at least two records, which is the guard of
the growth branch. -/
def kpis (historicalData : List MonthData) : KPIs :=
  let n : ℚ := historicalData.length
  { totalRevenue := (historicalData.map MonthData.revenue).sum
    avgGrossMargin := jsDiv ((historicalData.map MonthData.grossMargin).sum) n
    avgConversionRate :=
      jsDiv ((historicalData.map MonthData.conversionRate).sum) n
    avgOrderValue :=
      jsDiv ((historicalData.map fun m => ((m.avgOrderValue : ℚ))).sum) n
    monthlyGrowth :=
      if h : 2 ≤ historicalData.length then
        let prev := historicalData.get ⟨historicalData.length - 2, by omega⟩
        let cur := historicalData.get ⟨historicalData.length - 1, by omega⟩
        (jsDiv (((cur.revenue : ℚ)) - ((prev.revenue : ℚ)))
          ((prev.revenue : ℚ))).map (fun g => g * 100)
      else some 0 }

/-- The bear/base/bull scenario amounts (lines 367, 378 and 389 of the
source): `kpis.totalRevenue * 0.85`, `* 1.08`, `* 1.25`.  The display
scaling `/ 1_000_000` and `toFixed` are presentation, out of scope. -/
structure ScenarioSet where
  bear : ℚ
  base : ℚ
  bull : ℚ
deriving DecidableEq, Repr

/-- The scenario computation applied to the aggregated total revenue. -/
def scenarios (totalRevenue : ℚ) : ScenarioSet :=
  { bear := totalRevenue * (85/100)
    base := totalRevenue * (108/100)
    bull := totalRevenue * (125/100) }

/-! ### Concrete inputs used by witnesses and counterexamples -/

/-- A minimal historical record with a given revenue, used to feed the
aggregator and the projector on concrete inputs. -/
def mdOf (rev : ℤ) : MonthData :=
  { month := "", revenue := rev, units := 0, grossMargin := 0,
    conversionRate := 0, avgOrderValue := 0,
    trafficSources := ⟨0, 0, 0, 0, 0⟩ }

/-- The all-zero draw record: every `Math.random()` call returned 0. -/
def dZero : Draws := ⟨0, 0, 0, 0, 0, 0, 0, 0, 0, 0⟩

/-- A draw sequence where every call returns 0. -/
def dZeroSeq : ℕ → Draws := fun _ => dZero

/-- A historical sequence whose every record has revenue 1,000,000. -/
def histW : ℕ → MonthData := fun _ => mdOf 1000000

/-- A historical sequence whose every record has revenue 0. -/
def histZ : ℕ → MonthData := fun _ => mdOf 0

/-! ### Shared facts about the forecast projector -/

/-- Element `i` of the projector's output, for `i < 12`. -/
lemma forecastData_getElem (hist : ℕ → MonthData) (i : ℕ) (hi : i < 12) :
    (forecastData hist)[i]? = some (forecastPoint i (hist i).revenue) := by
  simp [forecastData, List.getElem?_map, List.getElem?_range, hi]

/-- Conversely, any element of the projector's output is a
`forecastPoint` at an index below 12. -/
lemma forecastData_getElem_inv (hist : ℕ → MonthData) (i : ℕ)
    (p : ForecastPoint) (hp : (forecastData hist)[i]? = some p) :
    i < 12 ∧ p = forecastPoint i (hist i).revenue := by
  rcases Nat.lt_or_ge i 12 with hi | hi
  · rw [forecastData_getElem hist i hi] at hp
    exact ⟨hi, (Option.some_inj.mp hp).symm⟩
  · rw [List.getElem?_eq_none (by simpa [forecastData] using hi)] at hp
    cases hp

/-! ### Claims -/

/-- C8: for indices 0–5 the seasonality factor is `0.8 + 0.05 × index`,
for indices 6–11 it is `1.2 − 0.03 × (index − 6)`, and the holiday
multiplier is 1.4 exactly at indices 10 and 11 and 1 elsewhere. -/
theorem C8_seasonality_formula :
    (∀ index : ℕ, index ≤ 5 →
      seasonality index = 4/5 + (index : ℚ) * (1/20)) ∧
    (∀ index : ℕ, 6 ≤ index → index ≤ 11 →
      seasonality index = 6/5 - ((index : ℚ) - 6) * (3/100)) ∧
    holidayBoost 10 = 7/5 ∧ holidayBoost 11 = 7/5 ∧
    (∀ index : ℕ, index ≠ 10 → index ≠ 11 → holidayBoost index = 1) := by
  refine ⟨fun i hi => ?_, fun i h6 _ => ?_,
    by norm_num [holidayBoost], by norm_num [holidayBoost],
    fun i h10 h11 => ?_⟩
  · rw [seasonality, if_pos (by omega)]; ring
  · rw [seasonality, if_neg (by omega)]; norm_num
  · rw [holidayBoost, if_neg (by tauto)]

/-- C8 witness: the formulas evaluated at indices 3, 8 and 9. -/
theorem C8_seasonality_formula_witness :
    seasonality 3 = 19/20 ∧ seasonality 8 = 57/50 ∧ holidayBoost 9 = 1 := by
  refine ⟨?_, ?_, C8_seasonality_formula.2.2.2.2 9 (by norm_num) (by norm_num)⟩
  · rw [C8_seasonality_formula.1 3 (by norm_num)]; norm_num
  · rw [C8_seasonality_formula.2.1 8 (by norm_num) (by norm_num)]; norm_num

/-- C5: the scenario amounts are `totalRevenue × 0.85`, `× 1.08` and
`× 1.25`, and they are strictly ordered bear < base < bull whenever
`totalRevenue > 0`. -/
theorem C5_scenario_amounts (t : ℚ) :
    (scenarios t).bear = t * (17/20) ∧
    (scenarios t).base = t * (27/25) ∧
    (scenarios t).bull = t * (5/4) ∧
    (0 < t → (scenarios t).bear < (scenarios t).base ∧
      (scenarios t).base < (scenarios t).bull) := by
  refine ⟨by rw [scenarios]; ring, by rw [scenarios]; ring,
    by rw [scenarios]; ring, fun ht => ⟨?_, ?_⟩⟩ <;>
    · rw [scenarios]; dsimp only; linarith

/-- C5 witness: `totalRevenue = 10,000,000` yields bear 8,500,000,
base 10,800,000 and bull 12,500,000, strictly ordered. -/
theorem C5_scenario_amounts_witness :
    (scenarios 10000000).bear = 8500000 ∧
    (scenarios 10000000).base = 10800000 ∧
    (scenarios 10000000).bull = 12500000 ∧
    (scenarios 10000000).bear < (scenarios 10000000).base ∧
    (scenarios 10000000).base < (scenarios 10000000).bull := by
  obtain ⟨h1, h2, h3, h4⟩ := C5_scenario_amounts 10000000
  obtain ⟨h5, h6⟩ := h4 (by norm_num)
  rw [h1, h2, h3]
  norm_num [h5, h6]

/-- C1: the projector outputs 12 points; point `i` carries the month
label tagged `" (F)"`, `projectedRevenue = round(revenue × 1.08)`,
`upperBound = round(base × 1.10)`, `lowerBound = round(base × 0.90)` and
`confidence = max(0, 0.85 − 0.02 × i)`. -/
theorem C1_forecast_point_formula (hist : ℕ → MonthData) (i : ℕ)
    (hi : i < 12) :
    (forecastData hist).length = 12 ∧
    (forecastData hist)[i]? =
      some { month := monthName i ++ " (F)"
             revenue := jsRound (((hist i).revenue : ℚ) * (27/25))
             forecastHigh := jsRound (((hist i).revenue : ℚ) * (27/25) * (11/10))
             forecastLow := jsRound (((hist i).revenue : ℚ) * (27/25) * (9/10))
             confidence := max 0 (17/20 - (i : ℚ) * (1/50)) } := by
  refine ⟨by simp [forecastData], ?_⟩
  rw [forecastData_getElem hist i hi]
  simp only [forecastPoint, growthTrend, uncertainty, Option.some_inj,
    ForecastPoint.mk.injEq]
  refine ⟨trivial, congrArg jsRound (by ring), congrArg jsRound (by ring),
    congrArg jsRound (by ring), by congr 1; ring⟩

/-- C1 witness: on a series whose record at index 11 has revenue
1,000,000, the point at index 11 has projectedRevenue 1,080,000,
upperBound 1,188,000, lowerBound 972,000 and confidence 0.63. -/
theorem C1_forecast_point_formula_witness :
    (forecastData histW)[11]? =
      some { month := "Dec (F)", revenue := 1080000, forecastHigh := 1188000,
             forecastLow := 972000, confidence := 63/100 } := by
  rw [(C1_forecast_point_formula histW 11 (by norm_num)).2]
  have hc : max (0 : ℚ) (17/20 - (11 : ℕ) * (1/50)) = 63/100 := by
    rw [max_eq_right (by norm_num)]; norm_num
  simp only [histW, mdOf, hc]
  norm_num [jsRound, monthName, months]
  decide

/-- C3: when each historical revenue is non-negative, every projector
output point satisfies `lowerBound ≤ projectedRevenue ≤ upperBound`. -/
theorem C3_band_contains_projection (hist : ℕ → MonthData)
    (hnn : ∀ j, 0 ≤ (hist j).revenue) (i : ℕ) (p : ForecastPoint)
    (hp : (forecastData hist)[i]? = some p) :
    p.forecastLow ≤ p.revenue ∧ p.revenue ≤ p.forecastHigh := by
  obtain ⟨hi, rfl⟩ := forecastData_getElem_inv hist i p hp
  unfold forecastPoint jsRound
  have hb : (0 : ℚ) ≤ ((hist i).revenue : ℚ) * growthTrend := by
    have h0 : (0 : ℚ) ≤ ((hist i).revenue : ℚ) := by exact_mod_cast hnn i
    have h1 : (0 : ℚ) ≤ growthTrend := by rw [growthTrend]; norm_num
    exact mul_nonneg h0 h1
  constructor <;>
    · apply Int.floor_mono
      rw [uncertainty]
      linarith

/-- C3 witness: on the all-zero-revenue series the point at index 0 has
its projection inside the band. -/
theorem C3_band_contains_projection_witness :
    (forecastPoint 0 0).forecastLow ≤ (forecastPoint 0 0).revenue ∧
    (forecastPoint 0 0).revenue ≤ (forecastPoint 0 0).forecastHigh :=
  C3_band_contains_projection histZ (fun _ => le_refl 0) 0
    (forecastPoint 0 0) (forecastData_getElem histZ 0 (by norm_num))

/-- C4: confidence is non-increasing along the forecast horizon and never
negative: if `i ≤ j` then the point at `j` has confidence at most that of
the point at `i`, and all confidences are ≥ 0. -/
theorem C4_confidence_decay (hist : ℕ → MonthData) (i j : ℕ) (hij : i ≤ j)
    (pa pb : ForecastPoint)
    (ha : (forecastData hist)[i]? = some pa)
    (hb : (forecastData hist)[j]? = some pb) :
    pb.confidence ≤ pa.confidence ∧ 0 ≤ pb.confidence := by
  obtain ⟨_, rfl⟩ := forecastData_getElem_inv hist i pa ha
  obtain ⟨_, rfl⟩ := forecastData_getElem_inv hist j pb hb
  unfold forecastPoint
  refine ⟨max_le_max le_rfl ?_, le_max_left 0 _⟩
  have hc : (i : ℚ) ≤ (j : ℚ) := by exact_mod_cast hij
  linarith

/-- C4 witness: on a concrete series, the confidence at index 1 is at
most the confidence at index 0 and is non-negative. -/
theorem C4_confidence_decay_witness :
    (forecastPoint 1 0).confidence ≤ (forecastPoint 0 0).confidence ∧
    0 ≤ (forecastPoint 1 0).confidence :=
  C4_confidence_decay histZ 0 1 (by norm_num)
    (forecastPoint 0 0) (forecastPoint 1 0)
    (forecastData_getElem histZ 0 (by norm_num))
    (forecastData_getElem histZ 1 (by norm_num))

/-- C2: with at least two records, the aggregator returns the revenue
sum, the three arithmetic means, and a month-over-month growth of
`(last − secondToLast) / secondToLast × 100` (the growth equation
presupposes its divisor, the second-to-last revenue, is nonzero). -/
theorem C2_kpi_aggregation (hist : List MonthData) (h2 : 2 ≤ hist.length)
    (prev cur : MonthData)
    (hprev : hist[hist.length - 2]? = some prev)
    (hcur : hist[hist.length - 1]? = some cur) :
    (kpis hist).totalRevenue = (hist.map MonthData.revenue).sum ∧
    (kpis hist).avgGrossMargin =
      some ((hist.map MonthData.grossMargin).sum / (hist.length : ℚ)) ∧
    (kpis hist).avgConversionRate =
      some ((hist.map MonthData.conversionRate).sum / (hist.length : ℚ)) ∧
    (kpis hist).avgOrderValue =
      some ((hist.map fun m => ((m.avgOrderValue : ℚ))).sum / (hist.length : ℚ)) ∧
    (prev.revenue ≠ 0 →
      (kpis hist).monthlyGrowth =
        some ((((cur.revenue : ℚ) - (prev.revenue : ℚ)) / (prev.revenue : ℚ))
          * 100)) := by
  have hn : ((hist.length : ℚ)) ≠ 0 := Nat.cast_ne_zero.mpr (by omega)
  refine ⟨rfl, ?_, ?_, ?_, fun hpz => ?_⟩
  · simp only [kpis, jsDiv, if_neg hn]
  · simp only [kpis, jsDiv, if_neg hn]
  · simp only [kpis, jsDiv, if_neg hn]
  · have hp2 : hist.length - 2 < hist.length := by omega
    have hp1 : hist.length - 1 < hist.length := by omega
    rw [List.getElem?_eq_getElem hp2] at hprev
    rw [List.getElem?_eq_getElem hp1] at hcur
    have eprev : hist.get ⟨hist.length - 2, hp2⟩ = prev :=
      Option.some_inj.mp hprev
    have ecur : hist.get ⟨hist.length - 1, hp1⟩ = cur :=
      Option.some_inj.mp hcur
    have hpz' : ((prev.revenue : ℚ)) ≠ 0 := by exact_mod_cast hpz
    simp only [kpis, dif_pos h2, eprev, ecur, jsDiv, if_neg hpz']
    rfl

/-- C2 witness: on revenues 100 then 110 the aggregator returns total
revenue 210 and monthly growth 10.0. -/
theorem C2_kpi_aggregation_witness :
    (kpis [mdOf 100, mdOf 110]).totalRevenue = 210 ∧
    (kpis [mdOf 100, mdOf 110]).monthlyGrowth = some 10 := by
  obtain ⟨h1, _, _, _, h5⟩ := C2_kpi_aggregation [mdOf 100, mdOf 110]
    (by norm_num) (mdOf 100) (mdOf 110) rfl rfl
  refine ⟨by rw [h1]; decide, ?_⟩
  rw [h5 (by decide)]
  norm_num [mdOf]

/-- C6 (corrected): on an empty series the aggregator raises no error and
returns totalRevenue 0 and monthlyGrowthPercent 0, but the three averages
are the JavaScript division 0/0, a non-finite NaN (`none`), not 0. -/
theorem C6_empty_series :
    kpis ([] : List MonthData) =
      { totalRevenue := 0, avgGrossMargin := none, avgConversionRate := none,
        avgOrderValue := none, monthlyGrowth := some 0 } := by
  decide

/-- C6 counterexample: on the empty series the average gross margin is
not 0, refuting the claim that all averages are 0 there. -/
theorem C6_empty_series_counterexample :
    (kpis ([] : List MonthData)).avgGrossMargin ≠ some 0 := by
  decide

/-- C7 (corrected): the growth division never has a zero divisor provided
every record's revenue is nonzero; the record-count guard alone does not
ensure this. `none` marks a non-finite division result. -/
theorem C7_growth_division_guard (hist : List MonthData)
    (hnz : ∀ m ∈ hist, m.revenue ≠ 0) :
    (kpis hist).monthlyGrowth ≠ none := by
  simp only [kpis]
  by_cases h2 : 2 ≤ hist.length
  · rw [dif_pos h2]
    have hlt : hist.length - 2 < hist.length := by omega
    have hpz : (hist[hist.length - 2]).revenue ≠ 0 :=
      hnz _ (List.getElem_mem hlt)
    simp [jsDiv, hpz]
  · rw [dif_neg h2]
    simp

/-- C7 witness: on the two-record series with revenues 100 and 110 the
growth division is evaluated and produces a finite value. -/
theorem C7_growth_division_guard_witness :
    (kpis [mdOf 100, mdOf 110]).monthlyGrowth ≠ none :=
  C7_growth_division_guard [mdOf 100, mdOf 110] (by decide)

/-- C7 counterexample: with two records whose second-to-last revenue is
0, the guard passes and the growth division divides by zero (JavaScript
yields a non-finite value, `none`), refuting the claim that the divisor
is nonzero whenever the division is evaluated. -/
theorem C7_growth_division_guard_counterexample :
    (kpis [mdOf 0, mdOf 5]).monthlyGrowth = none := by
  decide

/-- C9 (corrected): revenue and units are generated from the common
multiplier `seasonality index × holidayBoost index`, but avgOrderValue is
not: it is `round(280 + draw × 40)`, independent of the period index. -/
theorem C9_common_multiplier :
    (∀ (index : ℕ) (d : Draws),
      (mkRecord index d).revenue =
        jsRound ((850000 + d.revenue * 150000)
          * (seasonality index * holidayBoost index)) ∧
      (mkRecord index d).units =
        jsRound ((2800 + d.units * 500)
          * (seasonality index * holidayBoost index))) ∧
    (∀ (i j : ℕ) (d : Draws),
      (mkRecord i d).avgOrderValue = (mkRecord j d).avgOrderValue) :=
  ⟨fun _ _ =>
    ⟨congrArg jsRound (mul_assoc _ _ _), congrArg jsRound (mul_assoc _ _ _)⟩,
   fun _ _ _ => rfl⟩

/-- C9 counterexample: at index 10 (holiday period) with all draws 0, the
generated avgOrderValue is 280, not the seasonality-and-holiday-scaled
`round((280 + 0 × 40) × seasonality(10) × 1.4) = 423`: the avgOrderValue
formula does not contain the common seasonality multiplier. -/
theorem C9_common_multiplier_counterexample :
    (mkRecord 10 dZero).avgOrderValue ≠
      jsRound ((280 + dZero.avgOrderValue * 40)
        * (seasonality 10 * holidayBoost 10)) := by
  norm_num [mkRecord, dZero, jsRound, seasonality, holidayBoost]

/-- C10: whatever values in [0,1) the random draws take, the generator
yields exactly 12 records, and every record's grossMargin lies in
[0.64, 0.72) and conversionRate in [0.030, 0.038), both inside [0,1]. -/
theorem C10_generator_bounds (d : ℕ → Draws) (hd : ∀ i, (d i).valid) :
    (historicalData d).length = 12 ∧
    ∀ (i : ℕ) (m : MonthData), (historicalData d)[i]? = some m →
      16/25 ≤ m.grossMargin ∧ m.grossMargin < 18/25 ∧
      3/100 ≤ m.conversionRate ∧ m.conversionRate < 19/500 ∧
      0 ≤ m.grossMargin ∧ m.grossMargin ≤ 1 ∧
      0 ≤ m.conversionRate ∧ m.conversionRate ≤ 1 := by
  refine ⟨by simp [historicalData], fun i m hm => ?_⟩
  rcases Nat.lt_or_ge i 12 with hi | hi
  · have hsome : (historicalData d)[i]? = some (mkRecord i (d i)) := by
      simp [historicalData, List.getElem?_map, List.getElem?_range, hi]
    rw [hsome] at hm
    obtain rfl : mkRecord i (d i) = m := Option.some_inj.mp hm
    obtain ⟨hg0, hg1⟩ := (hd i).2.2.1
    obtain ⟨hc0, hc1⟩ := (hd i).2.2.2.1
    simp only [mkRecord]
    refine ⟨by linarith, by linarith, by linarith, by linarith,
      by linarith, by linarith, by linarith, by linarith⟩
  · rw [List.getElem?_eq_none (by simpa [historicalData] using hi)] at hm
    cases hm

/-- All-zero draws are valid draws. -/
lemma dZero_valid : dZero.valid := by decide

/-- C10 witness: with every draw 0 the generator yields 12 records and
the first record's rates sit at the lower ends of their ranges. -/
theorem C10_generator_bounds_witness :
    (historicalData dZeroSeq).length = 12 ∧
    (16/25 ≤ (mkRecord 0 dZero).grossMargin ∧
      (mkRecord 0 dZero).grossMargin < 18/25) := by
  have h := C10_generator_bounds dZeroSeq (fun _ => dZero_valid)
  refine ⟨h.1, ?_⟩
  have h0 := h.2 0 (mkRecord 0 dZero)
    (by simp [historicalData, List.getElem?_map, List.getElem?_range, dZeroSeq])
  exact ⟨h0.1, h0.2.1⟩

end RetailAnalytics
